import Mathlib

/-!
Shallow embedding of `src/main.py`, a levelized-cost-of-hydrogen calculator.

The Python program builds a list of plant components (`Elektrolyseur`,
`Windkraftanlage`, `PVAnlage`) from configuration files and then runs
`WasserstoffProjekt.starte_monatliche_analyse`, which balances monthly
generation against the first electrolyzer's demand, derives the annual
hydrogen output and the levelized cost per kilogram.

Modelling choices:
* Python/numpy floats are modelled as exact rationals (`ℚ`).  The one place
  where a float computation can leave the finite range — the division
  `jahres_selbstversorgung / nennleistung_kw`, whose left operand is a
  `numpy.float64` so that division by zero yields `±inf`/`nan` with a
  `RuntimeWarning` instead of raising `ZeroDivisionError` — is modelled by
  the extended-value type `FVal`.
* A seasonal profile is a vector of 12 monthly values (`Fin 12 → ℚ`), the
  shape the program reads from a profile CSV (or substitutes as fallback).
* The uncaught exceptions the analysis can raise are modelled with `Except`:
  `pandas.DataFrame` construction from all-scalar values (which happens
  exactly when the generator list is empty, because `sum(...)` over an empty
  generator is the scalar `0`) raises `ValueError`.
-/

namespace Genesis

/-- Extended value modelling a `numpy.float64` result that can be infinite or
NaN.  Finite values are exact rationals. -/
inductive FVal where
  | fin (q : ℚ)
  | posInf
  | negInf
  | nan
  deriving DecidableEq

/-- numpy `float64` division `x / y` of finite operands: division by zero
yields `±inf` (or `nan` for `0 / 0`) with a `RuntimeWarning`, it does not
raise `ZeroDivisionError`. -/
def npDiv (x y : ℚ) : FVal :=
  if y = 0 then
    if 0 < x then .posInf else if x < 0 then .negInf else .nan
  else
    .fin (x / y)

/-- Multiplication of a possibly non-finite float by a finite float. -/
def FVal.mulQ : FVal → ℚ → FVal
  | .fin q, r => .fin (q * r)
  | .posInf, r => if 0 < r then .posInf else if r < 0 then .negInf else .nan
  | .negInf, r => if 0 < r then .negInf else if r < 0 then .posInf else .nan
  | .nan, _ => .nan

/-- The Python comparison `v > 0` on a possibly non-finite float
(`nan > 0` is `False`, `inf > 0` is `True`). -/
def FVal.gtZero : FVal → Bool
  | .fin q => decide (0 < q)
  | .posInf => true
  | .negInf => false
  | .nan => false

/-- Division of a finite float by a possibly non-finite one
(`a / inf = 0`, `a / nan = nan`). -/
def FVal.divOf (a : ℚ) : FVal → FVal
  | .fin b => npDiv a b
  | .posInf => .fin 0
  | .negInf => .fin 0
  | .nan => .nan

/-- A vector of 12 monthly values (a `pandas.Series` indexed by month). -/
abbrev Monatswerte := Fin 12 → ℚ

/-- The keys of a component's `[Allgemein]` configuration section that
`AnlagenKomponente.__init__` reads.  A key absent from the `.ini` file is
`none`; Python reads it with `fallback=0`. -/
structure ConfigAllgemein where
  lebensdauer_jahre : ℕ
  spezifische_investitionskosten_eur_pro_kw : Option ℚ
  spezifische_investitionskosten_eur_pro_kwp : Option ℚ
  deriving DecidableEq

/-- Python `a or b` on floats: `a` when it is truthy (non-zero), else `b`. -/
def pyOrFloat (a b : ℚ) : ℚ := if a = 0 then b else a

/-- The assignment `self.spez_invest_eur_kw =
config.getfloat('spezifische_investitionskosten_eur_pro_kw', fallback=0) or
config.getfloat('spezifische_investitionskosten_eur_pro_kwp', fallback=0)`
in `AnlagenKomponente.__init__` (src/main.py lines 15-16). -/
def ConfigAllgemein.spez_invest_eur_kw (c : ConfigAllgemein) : ℚ :=
  pyOrFloat (c.spezifische_investitionskosten_eur_pro_kw.getD 0)
    (c.spezifische_investitionskosten_eur_pro_kwp.getD 0)

/-- `Elektrolyseur` (src/main.py lines 22-32): fields stored by its
constructor.  `investitionskosten` is derived below exactly as the
constructor computes it. -/
structure Elektrolyseur where
  lebensdauer : ℕ
  spez_invest_eur_kw : ℚ
  nennleistung_kw : ℚ
  strombedarf_kwh_pa : ℚ
  h2_produktionsrate_kg_h : ℚ
  deriving DecidableEq

/-- `self.investitionskosten = self.spez_invest_eur_kw * self.nennleistung_kw`
(src/main.py line 29). -/
def Elektrolyseur.investitionskosten (e : Elektrolyseur) : ℚ :=
  e.spez_invest_eur_kw * e.nennleistung_kw

/-- `AnlagenKomponente.get_abschreibung_pa` (src/main.py lines 19-20). -/
def Elektrolyseur.get_abschreibung_pa (e : Elektrolyseur) : ℚ :=
  if 0 < e.lebensdauer then e.investitionskosten / (e.lebensdauer : ℚ) else 0

/-- `Elektrolyseur.get_wartung_pa`: 1.5 % of investment
(src/main.py lines 31-32). -/
def Elektrolyseur.get_wartung_pa (e : Elektrolyseur) : ℚ :=
  e.investitionskosten * (15 / 1000)

/-- Loading of a generator's seasonal profile in `EnergieErzeuger.__init__`
(src/main.py lines 38-45): the `Prozent` column of the profile CSV divided by
100; when the profile file is missing (`FileNotFoundError`) construction does
not abort but uses the uniform fallback `pd.Series([1/12] * 12)` and prints a
warning (modelled as the `true` in the second component). -/
def ladeMonatsprofil : Option Monatswerte → Monatswerte × Bool
  | some prozent => (fun m => prozent m / 100, false)
  | none => (fun _ => (1 : ℚ) / 12, true)

/-- `Windkraftanlage` (src/main.py lines 50-63): fields stored by its
constructor (the seasonal profile comes from `ladeMonatsprofil`). -/
structure Windkraftanlage where
  lebensdauer : ℕ
  spez_invest_eur_kw : ℚ
  monatsprofil : Monatswerte
  nennleistung_kw : ℚ
  vollaststunden_pa : ℚ
  deriving DecidableEq

/-- `self.investitionskosten = self.spez_invest_eur_kw * self.nennleistung_kw`
(src/main.py line 56). -/
def Windkraftanlage.investitionskosten (w : Windkraftanlage) : ℚ :=
  w.spez_invest_eur_kw * w.nennleistung_kw

/-- `Windkraftanlage.get_monatliche_produktion_kwh` (src/main.py lines 58-60):
annual production `nennleistung_kw * vollaststunden_pa` scaled by the monthly
profile. -/
def Windkraftanlage.get_monatliche_produktion_kwh (w : Windkraftanlage) :
    Monatswerte :=
  fun m => w.nennleistung_kw * w.vollaststunden_pa * w.monatsprofil m

/-- `Windkraftanlage.get_wartung_pa`: 2 % of investment
(src/main.py lines 62-63). -/
def Windkraftanlage.get_wartung_pa (w : Windkraftanlage) : ℚ :=
  w.investitionskosten * (2 / 100)

/-- `PVAnlage` (src/main.py lines 65-78): fields stored by its constructor. -/
structure PVAnlage where
  lebensdauer : ℕ
  spez_invest_eur_kw : ℚ
  monatsprofil : Monatswerte
  nennleistung_kwp : ℚ
  sonneneinstrahlung_kwh_kwp : ℚ
  deriving DecidableEq

/-- `self.investitionskosten = self.spez_invest_eur_kw * self.nennleistung_kwp`
(src/main.py line 71). -/
def PVAnlage.investitionskosten (p : PVAnlage) : ℚ :=
  p.spez_invest_eur_kw * p.nennleistung_kwp

/-- `PVAnlage.get_monatliche_produktion_kwh` (src/main.py lines 73-75). -/
def PVAnlage.get_monatliche_produktion_kwh (p : PVAnlage) : Monatswerte :=
  fun m => p.nennleistung_kwp * p.sonneneinstrahlung_kwh_kwp * p.monatsprofil m

/-- `PVAnlage.get_wartung_pa`: 1.5 % of investment
(src/main.py lines 77-78). -/
def PVAnlage.get_wartung_pa (p : PVAnlage) : ℚ :=
  p.investitionskosten * (15 / 1000)

/-- The runtime class `EnergieErzeuger` with its two concrete subclasses
(`isinstance(k, EnergieErzeuger)` is true exactly for these). -/
inductive Erzeuger where
  | wind (w : Windkraftanlage)
  | pv (p : PVAnlage)
  deriving DecidableEq

def Erzeuger.investitionskosten : Erzeuger → ℚ
  | .wind w => w.investitionskosten
  | .pv p => p.investitionskosten

def Erzeuger.lebensdauer : Erzeuger → ℕ
  | .wind w => w.lebensdauer
  | .pv p => p.lebensdauer

def Erzeuger.get_monatliche_produktion_kwh : Erzeuger → Monatswerte
  | .wind w => w.get_monatliche_produktion_kwh
  | .pv p => p.get_monatliche_produktion_kwh

def Erzeuger.get_wartung_pa : Erzeuger → ℚ
  | .wind w => w.get_wartung_pa
  | .pv p => p.get_wartung_pa

/-- Any element of `WasserstoffProjekt.alle_komponenten`: an `Elektrolyseur`
or an `EnergieErzeuger` (`_parse_projekt_struktur` appends nothing else). -/
inductive Komponente where
  | elektro (e : Elektrolyseur)
  | erz (g : Erzeuger)
  deriving DecidableEq

def Komponente.investitionskosten : Komponente → ℚ
  | .elektro e => e.investitionskosten
  | .erz g => g.investitionskosten

def Komponente.lebensdauer : Komponente → ℕ
  | .elektro e => e.lebensdauer
  | .erz g => g.lebensdauer

/-- The specific investment cost per unit of the capacity the constructor
multiplies it with. -/
def Komponente.spez_invest_eur_kw : Komponente → ℚ
  | .elektro e => e.spez_invest_eur_kw
  | .erz (.wind w) => w.spez_invest_eur_kw
  | .erz (.pv p) => p.spez_invest_eur_kw

/-- The capacity field each subclass constructor multiplies the specific
investment cost with: `nennleistung_kw` for electrolyzers and wind,
`nennleistung_kwp` for PV. -/
def Komponente.ratedCapacity : Komponente → ℚ
  | .elektro e => e.nennleistung_kw
  | .erz (.wind w) => w.nennleistung_kw
  | .erz (.pv p) => p.nennleistung_kwp

/-- `AnlagenKomponente.get_abschreibung_pa` (src/main.py lines 19-20),
inherited by every component: investment divided by lifetime, `0` when the
lifetime is not positive. -/
def Komponente.get_abschreibung_pa (k : Komponente) : ℚ :=
  if 0 < k.lebensdauer then k.investitionskosten / (k.lebensdauer : ℚ) else 0

def Komponente.get_wartung_pa : Komponente → ℚ
  | .elektro e => e.get_wartung_pa
  | .erz g => g.get_wartung_pa

/-- `[k for k in self.alle_komponenten if isinstance(k, Elektrolyseur)]`
(src/main.py line 120). -/
def elektrolyseureOf (ks : List Komponente) : List Elektrolyseur :=
  ks.filterMap fun k => match k with
    | .elektro e => some e
    | .erz _ => none

/-- `[k for k in self.alle_komponenten if isinstance(k, EnergieErzeuger)]`
(src/main.py line 121). -/
def erzeugerOf (ks : List Komponente) : List Erzeuger :=
  ks.filterMap fun k => match k with
    | .elektro _ => none
    | .erz g => some g

/-- The two ways `starte_monatliche_analyse` can stop without producing a
result: the explicit missing-electrolyzer early return (src/main.py lines
123-125), and the `ValueError` pandas raises when `pd.DataFrame` is built
from all-scalar values — which happens exactly when the generator list is
empty, because `sum(...)` over an empty generator is the scalar `0`
(src/main.py lines 128, 132-135). -/
inductive AnalyseFehler where
  | keinElektrolyseur
  | dataFrameAusSkalaren
  deriving DecidableEq

/-- The numbers `starte_monatliche_analyse` computes (src/main.py lines
127-157): the monthly balance columns of the DataFrame and the annual
aggregates. -/
structure Ergebnis where
  erzeugung : Monatswerte
  bedarf_elektrolyseur : ℚ
  selbstversorgung : Monatswerte
  netzeinspeisung_ueberschuss : Monatswerte
  netzbezug_defizit : Monatswerte
  jahres_erzeugung : ℚ
  jahres_selbstversorgung : ℚ
  h2_produktionsstunden : FVal
  h2_produktion_kg_pa : FVal
  gesamte_investition : ℚ
  selbstkosten_total_pa : ℚ
  gestehungskosten_pro_kg_h2 : FVal

/-- The computation of `starte_monatliche_analyse` after its two early exits,
with the first electrolyzer `e0` and the generator list in hand (src/main.py
lines 127-157), line by line. -/
def berechneErgebnis (ks : List Komponente) (e0 : Elektrolyseur)
    (erzeuger : List Erzeuger) : Ergebnis :=
  let monatliche_erzeugung : Monatswerte :=
    fun m => (erzeuger.map fun g => g.get_monatliche_produktion_kwh m).sum
  let monatlicher_bedarf : ℚ := e0.strombedarf_kwh_pa / 12
  let selbstversorgung : Monatswerte :=
    fun m => min (monatliche_erzeugung m) monatlicher_bedarf
  let ueberschuss : Monatswerte :=
    fun m => max (monatliche_erzeugung m - monatlicher_bedarf) 0
  let defizit : Monatswerte :=
    fun m => max (monatlicher_bedarf - monatliche_erzeugung m) 0
  let jahres_erzeugung : ℚ := ∑ m : Fin 12, monatliche_erzeugung m
  let jahres_selbstversorgung : ℚ := ∑ m : Fin 12, selbstversorgung m
  let h2_produktionsstunden : FVal :=
    npDiv jahres_selbstversorgung e0.nennleistung_kw
  let h2_produktion_kg_pa : FVal :=
    h2_produktionsstunden.mulQ e0.h2_produktionsrate_kg_h
  let gesamte_investition : ℚ := (ks.map Komponente.investitionskosten).sum
  let selbstkosten_total_pa : ℚ :=
    (ks.map Komponente.get_abschreibung_pa).sum +
      (ks.map Komponente.get_wartung_pa).sum +
      gesamte_investition * (1 / 2) * (7 / 100)
  { erzeugung := monatliche_erzeugung
    bedarf_elektrolyseur := monatlicher_bedarf
    selbstversorgung := selbstversorgung
    netzeinspeisung_ueberschuss := ueberschuss
    netzbezug_defizit := defizit
    jahres_erzeugung := jahres_erzeugung
    jahres_selbstversorgung := jahres_selbstversorgung
    h2_produktionsstunden := h2_produktionsstunden
    h2_produktion_kg_pa := h2_produktion_kg_pa
    gesamte_investition := gesamte_investition
    selbstkosten_total_pa := selbstkosten_total_pa
    gestehungskosten_pro_kg_h2 :=
      if h2_produktion_kg_pa.gtZero then
        FVal.divOf selbstkosten_total_pa h2_produktion_kg_pa
      else .posInf }

/-- `WasserstoffProjekt.starte_monatliche_analyse` (src/main.py lines
119-170).  With no electrolyzer it prints an error and returns before any
computation; with an electrolyzer but no generator, `monatliche_erzeugung`
is the scalar `0` and the `pd.DataFrame` constructor raises `ValueError`
("If using all scalar values, you must pass an index"); otherwise it
computes the balance, the hydrogen yield and the costs. -/
def starte_monatliche_analyse (ks : List Komponente) :
    Except AnalyseFehler Ergebnis :=
  match elektrolyseureOf ks with
  | [] => .error .keinElektrolyseur
  | e0 :: _ =>
    match erzeugerOf ks with
    | [] => .error .dataFrameAusSkalaren
    | _ :: _ => .ok (berechneErgebnis ks e0 (erzeugerOf ks))

/-! Concrete components used to instantiate the claims: an electrolyzer with
the Scenario-A cost figures, a wind generator with a uniform profile, and a
zero-rated-power electrolyzer. -/

def eA : Elektrolyseur :=
  { lebensdauer := 10, spez_invest_eur_kw := 800, nennleistung_kw := 1000,
    strombedarf_kwh_pa := 1200000, h2_produktionsrate_kg_h := 18 }

def wA : Windkraftanlage :=
  { lebensdauer := 20, spez_invest_eur_kw := 1000,
    monatsprofil := fun _ => (1 : ℚ) / 12,
    nennleistung_kw := 2000, vollaststunden_pa := 2000 }

def eZeroKW : Elektrolyseur :=
  { lebensdauer := 10, spez_invest_eur_kw := 800, nennleistung_kw := 0,
    strombedarf_kwh_pa := 1200000, h2_produktionsrate_kg_h := 18 }

def ksA : List Komponente := [.elektro eA, .erz (.wind wA)]

def ksC1 : List Komponente := [.elektro eZeroKW, .erz (.wind wA)]

def ksC2 : List Komponente := [.elektro eA]

/-! Helper lemmas about the analysis. -/

theorem berechne_erzeugung (ks : List Komponente) (e0 : Elektrolyseur)
    (gs : List Erzeuger) :
    (berechneErgebnis ks e0 gs).erzeugung =
      fun m => (gs.map fun g => g.get_monatliche_produktion_kwh m).sum := rfl

theorem berechne_bedarf (ks : List Komponente) (e0 : Elektrolyseur)
    (gs : List Erzeuger) :
    (berechneErgebnis ks e0 gs).bedarf_elektrolyseur =
      e0.strombedarf_kwh_pa / 12 := rfl

theorem berechne_selbstversorgung (ks : List Komponente) (e0 : Elektrolyseur)
    (gs : List Erzeuger) :
    (berechneErgebnis ks e0 gs).selbstversorgung = fun m =>
      min ((berechneErgebnis ks e0 gs).erzeugung m)
        (berechneErgebnis ks e0 gs).bedarf_elektrolyseur := rfl

theorem berechne_ueberschuss (ks : List Komponente) (e0 : Elektrolyseur)
    (gs : List Erzeuger) :
    (berechneErgebnis ks e0 gs).netzeinspeisung_ueberschuss = fun m =>
      max ((berechneErgebnis ks e0 gs).erzeugung m -
        (berechneErgebnis ks e0 gs).bedarf_elektrolyseur) 0 := rfl

theorem berechne_defizit (ks : List Komponente) (e0 : Elektrolyseur)
    (gs : List Erzeuger) :
    (berechneErgebnis ks e0 gs).netzbezug_defizit = fun m =>
      max ((berechneErgebnis ks e0 gs).bedarf_elektrolyseur -
        (berechneErgebnis ks e0 gs).erzeugung m) 0 := rfl

theorem berechne_jahres_erzeugung (ks : List Komponente) (e0 : Elektrolyseur)
    (gs : List Erzeuger) :
    (berechneErgebnis ks e0 gs).jahres_erzeugung =
      ∑ m : Fin 12, (berechneErgebnis ks e0 gs).erzeugung m := rfl

theorem berechne_jahres_selbstversorgung (ks : List Komponente)
    (e0 : Elektrolyseur) (gs : List Erzeuger) :
    (berechneErgebnis ks e0 gs).jahres_selbstversorgung =
      ∑ m : Fin 12, (berechneErgebnis ks e0 gs).selbstversorgung m := rfl

theorem berechne_h2_stunden (ks : List Komponente) (e0 : Elektrolyseur)
    (gs : List Erzeuger) :
    (berechneErgebnis ks e0 gs).h2_produktionsstunden =
      npDiv (berechneErgebnis ks e0 gs).jahres_selbstversorgung
        e0.nennleistung_kw := rfl

theorem berechne_h2_produktion (ks : List Komponente) (e0 : Elektrolyseur)
    (gs : List Erzeuger) :
    (berechneErgebnis ks e0 gs).h2_produktion_kg_pa =
      ((berechneErgebnis ks e0 gs).h2_produktionsstunden).mulQ
        e0.h2_produktionsrate_kg_h := rfl

theorem berechne_investition (ks : List Komponente) (e0 : Elektrolyseur)
    (gs : List Erzeuger) :
    (berechneErgebnis ks e0 gs).gesamte_investition =
      (ks.map Komponente.investitionskosten).sum := rfl

theorem berechne_selbstkosten (ks : List Komponente) (e0 : Elektrolyseur)
    (gs : List Erzeuger) :
    (berechneErgebnis ks e0 gs).selbstkosten_total_pa =
      (ks.map Komponente.get_abschreibung_pa).sum +
        (ks.map Komponente.get_wartung_pa).sum +
        (ks.map Komponente.investitionskosten).sum * (1 / 2) * (7 / 100) := rfl

theorem berechne_gestehungskosten (ks : List Komponente) (e0 : Elektrolyseur)
    (gs : List Erzeuger) :
    (berechneErgebnis ks e0 gs).gestehungskosten_pro_kg_h2 =
      if ((berechneErgebnis ks e0 gs).h2_produktion_kg_pa).gtZero then
        FVal.divOf (berechneErgebnis ks e0 gs).selbstkosten_total_pa
          (berechneErgebnis ks e0 gs).h2_produktion_kg_pa
      else .posInf := rfl

theorem analysis_kein_elektrolyseur (ks : List Komponente)
    (hE : elektrolyseureOf ks = []) :
    starte_monatliche_analyse ks = .error .keinElektrolyseur := by
  unfold starte_monatliche_analyse
  rw [hE]

theorem analysis_keine_erzeuger (ks : List Komponente) (e0 : Elektrolyseur)
    (es : List Elektrolyseur) (hE : elektrolyseureOf ks = e0 :: es)
    (hG : erzeugerOf ks = []) :
    starte_monatliche_analyse ks = .error .dataFrameAusSkalaren := by
  unfold starte_monatliche_analyse
  rw [hE, hG]

theorem analysis_ok_inv (ks : List Komponente) (r : Ergebnis)
    (h : starte_monatliche_analyse ks = .ok r) :
    ∃ e0 es, elektrolyseureOf ks = e0 :: es ∧ erzeugerOf ks ≠ [] ∧
      r = berechneErgebnis ks e0 (erzeugerOf ks) := by
  unfold starte_monatliche_analyse at h
  cases hE : elektrolyseureOf ks with
  | nil => rw [hE] at h; exact absurd h (by simp)
  | cons e0 es =>
    rw [hE] at h
    cases hG : erzeugerOf ks with
    | nil => rw [hG] at h; exact absurd h (by simp)
    | cons g gs =>
      rw [hG] at h
      simp only [Except.ok.injEq] at h
      exact ⟨e0, es, rfl, List.cons_ne_nil g gs, h.symm⟩

theorem max_sub_mul_max_sub (x y : ℚ) : max (x - y) 0 * max (y - x) 0 = 0 := by
  rcases le_total x y with h | h
  · rw [max_eq_right (sub_nonpos.mpr h), zero_mul]
  · rw [max_eq_right (sub_nonpos.mpr h), mul_zero]

theorem npDiv_by_zero_ne_fin (x q : ℚ) : npDiv x 0 ≠ .fin q := by
  rcases lt_trichotomy x 0 with h | h | h
  · simp [npDiv, h, h.not_lt]
  · subst h; simp [npDiv]
  · simp [npDiv, h]

theorem mulQ_ne_fin (v : FVal) (r q : ℚ) (hv : ∀ p : ℚ, v ≠ .fin p) :
    v.mulQ r ≠ .fin q := by
  cases v with
  | fin p => exact absurd rfl (hv p)
  | posInf =>
    simp only [FVal.mulQ]
    split
    · simp
    · split <;> simp
  | negInf =>
    simp only [FVal.mulQ]
    split
    · simp
    · split <;> simp
  | nan => simp [FVal.mulQ]

theorem elektrolyseureOf_append (ks1 ks2 : List Komponente) :
    elektrolyseureOf (ks1 ++ ks2) = elektrolyseureOf ks1 ++ elektrolyseureOf ks2 := by
  simp [elektrolyseureOf, List.filterMap_append]

theorem erzeugerOf_append (ks1 ks2 : List Komponente) :
    erzeugerOf (ks1 ++ ks2) = erzeugerOf ks1 ++ erzeugerOf ks2 := by
  simp [erzeugerOf, List.filterMap_append]

theorem sum_const_fin12 (b : ℚ) : (∑ _m : Fin 12, b) = b * 12 := by
  rw [Finset.sum_const, Finset.card_univ, Fintype.card_fin, nsmul_eq_mul, mul_comm]
  norm_num

theorem berechne_gestehung_fin (ks : List Komponente) (e0 : Elektrolyseur)
    (gs : List Erzeuger) (q : ℚ)
    (hq : (berechneErgebnis ks e0 gs).h2_produktion_kg_pa = .fin q)
    (hqpos : 0 < q) :
    (berechneErgebnis ks e0 gs).gestehungskosten_pro_kg_h2 =
      .fin ((berechneErgebnis ks e0 gs).selbstkosten_total_pa / q) := by
  rw [berechne_gestehungskosten, hq]
  simp [FVal.gtZero, hqpos, FVal.divOf, npDiv, hqpos.ne']

/-! The claims. -/

/-- C3: whenever the analysis produces a result, a hydrogen output of exactly
`0` yields the `+infinity` sentinel as levelized cost (not an error), and a
positive hydrogen output `q` yields exactly `totalAnnualCost / q`. -/
theorem claim_C3 (ks : List Komponente) (r : Ergebnis)
    (h : starte_monatliche_analyse ks = .ok r) :
    (r.h2_produktion_kg_pa = .fin 0 → r.gestehungskosten_pro_kg_h2 = .posInf) ∧
    (∀ q : ℚ, r.h2_produktion_kg_pa = .fin q → 0 < q →
      r.gestehungskosten_pro_kg_h2 = .fin (r.selbstkosten_total_pa / q)) := by
  obtain ⟨e0, es, hE, hG, rfl⟩ := analysis_ok_inv ks r h
  constructor
  · intro h0
    rw [berechne_gestehungskosten, h0]
    norm_num [FVal.gtZero]
  · intro q hq hqpos
    exact berechne_gestehung_fin ks e0 (erzeugerOf ks) q hq hqpos

/-- Witness for C3 at the concrete two-component project `ksA`:
21600 kg of hydrogen per year and a finite levelized cost. -/
theorem claim_C3_witness :
    (berechneErgebnis ksA eA (erzeugerOf ksA)).gestehungskosten_pro_kg_h2 =
      .fin ((berechneErgebnis ksA eA (erzeugerOf ksA)).selbstkosten_total_pa / 21600) :=
  (claim_C3 ksA _ rfl).2 21600
    (by norm_num [berechneErgebnis, erzeugerOf, ksA, eA, wA,
      Erzeuger.get_monatliche_produktion_kwh,
      Windkraftanlage.get_monatliche_produktion_kwh, Fin.sum_univ_succ, min_def,
      npDiv, FVal.mulQ, List.filterMap_cons, List.map_cons, List.map_nil,
      List.sum_cons, List.sum_nil])
    (by norm_num)

/-- C4: in every month of a produced energy balance, self-consumption is the
minimum of generation and demand, surplus and deficit are the clipped
differences, and surplus and deficit are never both positive. -/
theorem claim_C4 (ks : List Komponente) (r : Ergebnis)
    (h : starte_monatliche_analyse ks = .ok r) (m : Fin 12) :
    r.selbstversorgung m = min (r.erzeugung m) r.bedarf_elektrolyseur ∧
    r.netzeinspeisung_ueberschuss m =
      max (r.erzeugung m - r.bedarf_elektrolyseur) 0 ∧
    r.netzbezug_defizit m = max (r.bedarf_elektrolyseur - r.erzeugung m) 0 ∧
    r.netzeinspeisung_ueberschuss m * r.netzbezug_defizit m = 0 := by
  obtain ⟨e0, es, hE, hG, rfl⟩ := analysis_ok_inv ks r h
  refine ⟨rfl, rfl, rfl, ?_⟩
  rw [berechne_ueberschuss, berechne_defizit]
  exact max_sub_mul_max_sub _ _

/-- Witness for C4 at the concrete project `ksA`, month 0 (January). -/
theorem claim_C4_witness :
    (berechneErgebnis ksA eA (erzeugerOf ksA)).selbstversorgung 0 =
      min ((berechneErgebnis ksA eA (erzeugerOf ksA)).erzeugung 0)
        (berechneErgebnis ksA eA (erzeugerOf ksA)).bedarf_elektrolyseur ∧
    (berechneErgebnis ksA eA (erzeugerOf ksA)).netzeinspeisung_ueberschuss 0 =
      max ((berechneErgebnis ksA eA (erzeugerOf ksA)).erzeugung 0 -
        (berechneErgebnis ksA eA (erzeugerOf ksA)).bedarf_elektrolyseur) 0 ∧
    (berechneErgebnis ksA eA (erzeugerOf ksA)).netzbezug_defizit 0 =
      max ((berechneErgebnis ksA eA (erzeugerOf ksA)).bedarf_elektrolyseur -
        (berechneErgebnis ksA eA (erzeugerOf ksA)).erzeugung 0) 0 ∧
    (berechneErgebnis ksA eA (erzeugerOf ksA)).netzeinspeisung_ueberschuss 0 *
      (berechneErgebnis ksA eA (erzeugerOf ksA)).netzbezug_defizit 0 = 0 :=
  claim_C4 ksA _ rfl 0

/-- C5: with no electrolyzer among the loaded components the analysis stops
with the missing-electrolyzer error and produces no result value. -/
theorem claim_C5 (ks : List Komponente) (hE : elektrolyseureOf ks = []) :
    starte_monatliche_analyse ks = .error .keinElektrolyseur ∧
      ∀ r : Ergebnis, starte_monatliche_analyse ks ≠ .ok r := by
  have h := analysis_kein_elektrolyseur ks hE
  exact ⟨h, fun r hr => by rw [h] at hr; exact Except.noConfusion hr⟩

/-- Witness for C5: a project holding only a wind generator. -/
theorem claim_C5_witness :
    starte_monatliche_analyse [Komponente.erz (Erzeuger.wind wA)] =
      .error .keinElektrolyseur :=
  (claim_C5 [Komponente.erz (Erzeuger.wind wA)] rfl).1

/-- C6: the annual self-consumption is the sum of the twelve monthly
self-consumption values, and it is bounded by the annual generation and by
twelve times the monthly demand. -/
theorem claim_C6 (ks : List Komponente) (r : Ergebnis)
    (h : starte_monatliche_analyse ks = .ok r) :
    r.jahres_selbstversorgung = ∑ m : Fin 12, r.selbstversorgung m ∧
    r.jahres_selbstversorgung ≤ r.jahres_erzeugung ∧
    r.jahres_selbstversorgung ≤ r.bedarf_elektrolyseur * 12 := by
  obtain ⟨e0, es, hE, hG, rfl⟩ := analysis_ok_inv ks r h
  refine ⟨rfl, ?_, ?_⟩
  · rw [berechne_jahres_selbstversorgung, berechne_jahres_erzeugung]
    refine Finset.sum_le_sum fun m _ => ?_
    rw [berechne_selbstversorgung]
    exact min_le_left _ _
  · rw [berechne_jahres_selbstversorgung]
    refine le_trans (Finset.sum_le_sum fun m _ => ?_)
      (le_of_eq (sum_const_fin12 _))
    rw [berechne_selbstversorgung]
    exact min_le_right _ _

/-- Witness for C6 at the concrete project `ksA`. -/
theorem claim_C6_witness :
    (berechneErgebnis ksA eA (erzeugerOf ksA)).jahres_selbstversorgung =
      (∑ m : Fin 12, (berechneErgebnis ksA eA (erzeugerOf ksA)).selbstversorgung m) ∧
    (berechneErgebnis ksA eA (erzeugerOf ksA)).jahres_selbstversorgung ≤
      (berechneErgebnis ksA eA (erzeugerOf ksA)).jahres_erzeugung ∧
    (berechneErgebnis ksA eA (erzeugerOf ksA)).jahres_selbstversorgung ≤
      (berechneErgebnis ksA eA (erzeugerOf ksA)).bedarf_elektrolyseur * 12 :=
  claim_C6 ksA _ rfl

/-- C7: for every component the investment cost is the specific investment
cost times the capacity its constructor uses, the yearly depreciation is
investment divided by lifetime (0 for a non-positive lifetime); the
Scenario-A electrolyzer `eA` (rated 1000 kW, 800 EUR/kW, 10 years) has
investment 800000, depreciation 80000 and maintenance 12000. -/
theorem claim_C7 :
    (∀ k : Komponente,
      k.investitionskosten = k.spez_invest_eur_kw * k.ratedCapacity ∧
      k.get_abschreibung_pa =
        if 0 < k.lebensdauer then k.investitionskosten / (k.lebensdauer : ℚ)
        else 0) ∧
    eA.nennleistung_kw = 1000 ∧ eA.spez_invest_eur_kw = 800 ∧
    eA.lebensdauer = 10 ∧ eA.investitionskosten = 800000 ∧
    eA.get_abschreibung_pa = 80000 ∧ eA.get_wartung_pa = 12000 := by
  refine ⟨fun k => ⟨?_, rfl⟩, rfl, rfl, rfl, ?_, ?_, ?_⟩
  · cases k with
    | elektro e => rfl
    | erz g =>
      cases g with
      | wind w => rfl
      | pv p => rfl
  · norm_num [eA, Elektrolyseur.investitionskosten]
  · norm_num [eA, Elektrolyseur.get_abschreibung_pa,
      Elektrolyseur.investitionskosten]
  · norm_num [eA, Elektrolyseur.get_wartung_pa,
      Elektrolyseur.investitionskosten]

/-- C8: when the profile file is unavailable, profile loading does not abort:
it yields the uniform profile of 12 equal fractions 1/12 together with a
(non-fatal) warning. -/
theorem claim_C8 :
    (∀ m : Fin 12, (ladeMonatsprofil none).1 m = 1 / 12) ∧
      (ladeMonatsprofil none).2 = true :=
  ⟨fun _ => rfl, rfl⟩

/-- C9: a per-kW specific investment cost that is absent or configured as
exactly 0 is overridden by the per-kWp key's value — the two cases are
indistinguishable. -/
theorem claim_C9 (c : ConfigAllgemein)
    (h : c.spezifische_investitionskosten_eur_pro_kw = none ∨
      c.spezifische_investitionskosten_eur_pro_kw = some 0) :
    c.spez_invest_eur_kw =
      c.spezifische_investitionskosten_eur_pro_kwp.getD 0 := by
  rcases h with h | h <;>
    simp [ConfigAllgemein.spez_invest_eur_kw, pyOrFloat, h]

def cfgC9 : ConfigAllgemein :=
  { lebensdauer_jahre := 20,
    spezifische_investitionskosten_eur_pro_kw := some 0,
    spezifische_investitionskosten_eur_pro_kwp := some 950 }

/-- Witness for C9: a configured `0` per-kW cost next to a per-kWp value of
950 resolves to 950. -/
theorem claim_C9_witness :
    cfgC9.spez_invest_eur_kw =
      cfgC9.spezifische_investitionskosten_eur_pro_kwp.getD 0 :=
  claim_C9 cfgC9 (Or.inr rfl)

/-- C1 counterexample: in the project `ksC1`, whose first electrolyzer has
`nennleistung_kw = 0` and whose annual self-consumption is positive, the
operating hours are `+inf` — the numpy division result — and not `0`, and the
hydrogen output is likewise not `0`: the claimed zero-guard does not exist in
the code. -/
theorem claim_C1_cex :
    (starte_monatliche_analyse ksC1).map Ergebnis.h2_produktionsstunden =
      .ok .posInf ∧
    (starte_monatliche_analyse ksC1).map Ergebnis.h2_produktionsstunden ≠
      .ok (.fin 0) ∧
    (starte_monatliche_analyse ksC1).map Ergebnis.h2_produktion_kg_pa ≠
      .ok (.fin 0) := by
  have h : starte_monatliche_analyse ksC1 =
      .ok (berechneErgebnis ksC1 eZeroKW (erzeugerOf ksC1)) := rfl
  have hs : (berechneErgebnis ksC1 eZeroKW (erzeugerOf ksC1)).h2_produktionsstunden =
      .posInf := by
    norm_num [berechneErgebnis, erzeugerOf, ksC1, eZeroKW, wA,
      Erzeuger.get_monatliche_produktion_kwh,
      Windkraftanlage.get_monatliche_produktion_kwh, Fin.sum_univ_succ, min_def,
      npDiv, List.filterMap_cons, List.map_cons, List.map_nil, List.sum_cons,
      List.sum_nil]
  have hp : (berechneErgebnis ksC1 eZeroKW (erzeugerOf ksC1)).h2_produktion_kg_pa =
      .posInf := by
    rw [berechne_h2_produktion, hs]
    norm_num [FVal.mulQ, eZeroKW]
  rw [h]
  simp [Except.map, hs, hp]

/-- C1 (amended): when the first electrolyzer's rated power is 0 the analysis
does not fault — numpy float division by zero yields `inf`/`nan` with a
warning — but the operating hours are not set to 0: they are `+inf` when the
annual self-consumption is positive and `nan` when it is zero, and neither
the operating hours nor the hydrogen output is the finite value 0. -/
theorem claim_C1 (ks : List Komponente) (e0 : Elektrolyseur)
    (es : List Elektrolyseur) (r : Ergebnis)
    (hE : elektrolyseureOf ks = e0 :: es) (h0 : e0.nennleistung_kw = 0)
    (h : starte_monatliche_analyse ks = .ok r) :
    (0 < r.jahres_selbstversorgung → r.h2_produktionsstunden = .posInf) ∧
    (r.jahres_selbstversorgung = 0 → r.h2_produktionsstunden = .nan) ∧
    r.h2_produktionsstunden ≠ .fin 0 ∧ r.h2_produktion_kg_pa ≠ .fin 0 := by
  obtain ⟨e0', es', hE', hG, rfl⟩ := analysis_ok_inv ks r h
  rw [hE] at hE'
  injection hE' with h1 h2
  subst h1
  rw [berechne_h2_produktion, berechne_h2_stunden, h0]
  refine ⟨?_, ?_, npDiv_by_zero_ne_fin _ 0,
    mulQ_ne_fin _ _ 0 (npDiv_by_zero_ne_fin _)⟩
  · intro hpos
    simp [npDiv, hpos]
  · intro hzero
    simp [npDiv, hzero]

/-- Witness for C1 (amended) at the concrete project `ksC1`: positive
self-consumption and a zero-rated electrolyzer give `+inf` operating hours. -/
theorem claim_C1_witness :
    (berechneErgebnis ksC1 eZeroKW (erzeugerOf ksC1)).h2_produktionsstunden =
      FVal.posInf :=
  (claim_C1 ksC1 eZeroKW [] _ rfl rfl rfl).1
    (by norm_num [berechneErgebnis, erzeugerOf, ksC1, eZeroKW, wA,
      Erzeuger.get_monatliche_produktion_kwh,
      Windkraftanlage.get_monatliche_produktion_kwh, Fin.sum_univ_succ, min_def,
      List.filterMap_cons, List.map_cons, List.map_nil, List.sum_cons,
      List.sum_nil])

/-- C2 counterexample: the project `ksC2` holds one electrolyzer and no
generator, and the analysis does not complete: it stops with the pandas
`ValueError` raised when a DataFrame is built from all-scalar values, and
produces no result. -/
theorem claim_C2_cex :
    starte_monatliche_analyse ksC2 = .error .dataFrameAusSkalaren ∧
      (starte_monatliche_analyse ksC2).toOption = none :=
  ⟨rfl, rfl⟩

/-- C2 (amended): for every project with at least one electrolyzer and an
empty generator list, the monthly analysis does not complete without error:
`sum(...)` over the empty generator list is the scalar `0`, so the
`pd.DataFrame` constructor raises `ValueError` and no report is produced. -/
theorem claim_C2 (ks : List Komponente) (e0 : Elektrolyseur)
    (es : List Elektrolyseur) (hE : elektrolyseureOf ks = e0 :: es)
    (hG : erzeugerOf ks = []) :
    starte_monatliche_analyse ks = .error .dataFrameAusSkalaren ∧
      ∀ r : Ergebnis, starte_monatliche_analyse ks ≠ .ok r := by
  have h := analysis_keine_erzeuger ks e0 es hE hG
  exact ⟨h, fun r hr => by rw [h] at hr; exact Except.noConfusion hr⟩

/-- Witness for C2 (amended) at the concrete one-electrolyzer project. -/
theorem claim_C2_witness :
    starte_monatliche_analyse ksC2 = .error AnalyseFehler.dataFrameAusSkalaren :=
  (claim_C2 ksC2 eA [] rfl rfl).1

/-- The yearly cost contribution of a single electrolyzer to the aggregated
totals: its depreciation, its maintenance, and the financing charge on its
investment (the three cost categories of src/main.py lines 150-155). -/
def kostenBeitrag (e1 : Elektrolyseur) : ℚ :=
  e1.get_abschreibung_pa + e1.get_wartung_pa +
    e1.investitionskosten * (1 / 2) * (7 / 100)

/-- C10: only the first electrolyzer determines the monthly demand, the
operating hours and the hydrogen output, while the cost totals sum over every
loaded component; appending a further electrolyzer leaves self-consumption
and hydrogen output unchanged, adds its full cost contribution, and — when
its contribution is positive and hydrogen output is finite positive —
strictly raises the levelized cost. -/
theorem claim_C10 (ks : List Komponente) (e0 : Elektrolyseur)
    (es : List Elektrolyseur) (r : Ergebnis)
    (hE : elektrolyseureOf ks = e0 :: es)
    (h : starte_monatliche_analyse ks = .ok r) :
    r.bedarf_elektrolyseur = e0.strombedarf_kwh_pa / 12 ∧
    r.h2_produktionsstunden =
      npDiv r.jahres_selbstversorgung e0.nennleistung_kw ∧
    r.h2_produktion_kg_pa =
      (npDiv r.jahres_selbstversorgung e0.nennleistung_kw).mulQ
        e0.h2_produktionsrate_kg_h ∧
    r.gesamte_investition = (ks.map Komponente.investitionskosten).sum ∧
    r.selbstkosten_total_pa =
      (ks.map Komponente.get_abschreibung_pa).sum +
        (ks.map Komponente.get_wartung_pa).sum +
        (ks.map Komponente.investitionskosten).sum * (1 / 2) * (7 / 100) ∧
    ∀ e1 : Elektrolyseur, ∀ r2 : Ergebnis,
      starte_monatliche_analyse (ks ++ [.elektro e1]) = .ok r2 →
      r2.jahres_selbstversorgung = r.jahres_selbstversorgung ∧
      r2.h2_produktion_kg_pa = r.h2_produktion_kg_pa ∧
      r2.selbstkosten_total_pa = r.selbstkosten_total_pa + kostenBeitrag e1 ∧
      ∀ q : ℚ, r.h2_produktion_kg_pa = .fin q → 0 < q → 0 < kostenBeitrag e1 →
        r.gestehungskosten_pro_kg_h2 = .fin (r.selbstkosten_total_pa / q) ∧
        r2.gestehungskosten_pro_kg_h2 =
          .fin ((r.selbstkosten_total_pa + kostenBeitrag e1) / q) ∧
        r.selbstkosten_total_pa / q <
          (r.selbstkosten_total_pa + kostenBeitrag e1) / q := by
  obtain ⟨e0', es', hE', hG, rfl⟩ := analysis_ok_inv ks r h
  rw [hE] at hE'
  injection hE' with h1 h2
  subst h1
  subst h2
  refine ⟨rfl, rfl, rfl, rfl, rfl, ?_⟩
  intro e1 r2 h2ok
  obtain ⟨f0, fs, hF, hG2, rfl⟩ := analysis_ok_inv _ r2 h2ok
  have hFe : elektrolyseureOf (ks ++ [Komponente.elektro e1]) =
      e0 :: (es ++ [e1]) := by
    rw [elektrolyseureOf_append, hE]
    rfl
  rw [hF] at hFe
  injection hFe with g1 g2
  subst g1
  have hGe : erzeugerOf (ks ++ [Komponente.elektro e1]) = erzeugerOf ks := by
    rw [erzeugerOf_append]
    simp [erzeugerOf]
  rw [hGe]
  have hko : (berechneErgebnis (ks ++ [Komponente.elektro e1]) f0
        (erzeugerOf ks)).selbstkosten_total_pa =
      (berechneErgebnis ks f0 (erzeugerOf ks)).selbstkosten_total_pa +
        kostenBeitrag e1 := by
    rw [berechne_selbstkosten, berechne_selbstkosten]
    simp only [List.map_append, List.sum_append, List.map_cons, List.map_nil,
      List.sum_cons, List.sum_nil, kostenBeitrag]
    have ha : Komponente.get_abschreibung_pa (Komponente.elektro e1) =
        e1.get_abschreibung_pa := rfl
    have hw : Komponente.get_wartung_pa (Komponente.elektro e1) =
        e1.get_wartung_pa := rfl
    have hi : Komponente.investitionskosten (Komponente.elektro e1) =
        e1.investitionskosten := rfl
    rw [ha, hw, hi]
    ring
  refine ⟨rfl, rfl, hko, ?_⟩
  intro q hq hqpos hd
  have hq2 : (berechneErgebnis (ks ++ [Komponente.elektro e1]) f0
      (erzeugerOf ks)).h2_produktion_kg_pa = .fin q := hq
  refine ⟨berechne_gestehung_fin ks f0 (erzeugerOf ks) q hq hqpos, ?_, ?_⟩
  · rw [berechne_gestehung_fin (ks ++ [Komponente.elektro e1]) f0
      (erzeugerOf ks) q hq2 hqpos, hko]
  · rw [add_div]
    exact lt_add_of_pos_right _ (div_pos hd hqpos)

/-- Witness for C10 at the concrete project `ksA`: the demand is the first
electrolyzer's annual demand divided by 12. -/
theorem claim_C10_witness :
    (berechneErgebnis ksA eA (erzeugerOf ksA)).bedarf_elektrolyseur =
      eA.strombedarf_kwh_pa / 12 :=
  (claim_C10 ksA eA [] _ rfl rfl).1

end Genesis
